import Mathlib

/-!
Verification of the decorator-composition mechanism from
`enable_memberfunc_traits.cpp`.

The C++ program is single-threaded and synchronous; every operation is
embedded as a pure Lean function.  Side effects (writes to standard output)
and thrown exceptions are made explicit:

* a computation of result type `T` is a pair `Comp T = List Event × Except CppExn T`,
  the list recording the output lines emitted (in order) and the `Except`
  recording either normal return or a thrown exception escaping the call;
* `double` is embedded as `ℚ` (exact arithmetic idealisation of the
  floating-point values used by the example);
* an `int` is embedded as `Int`;
* uninitialised fields (the `value` member of a failure `optional_type`) are
  embedded as `default` of an `Inhabited` instance.
-/

/-- An observable event of a computation: a line written to standard output,
or (for instrumented callables only) the record of one invocation of the
wrapped callable. -/
inductive Event where
  | out (line : String)
  | invoke
deriving DecidableEq, Repr

/-- A C++ exception, as discriminated by the catch clauses of
`exception_fail_safe`:  `ios w` is a `std::iostream::failure` whose `what()`
is `w`; `stdexc w` is any other exception derived from `std::exception`
(e.g. the `std::runtime_error`s thrown by `apples::calculate_cost_impl`)
whose `what()` is `w`; `badFunctionCall` is the `std::bad_function_call`
thrown when an empty `std::function` is invoked; `nonStd` is anything not
derived from `std::exception`. -/
inductive CppExn where
  | ios (what : String)
  | stdexc (what : String)
  | badFunctionCall
  | nonStd
deriving DecidableEq, Repr

/-- The implementation-defined `what()` string of `std::bad_function_call`
(libstdc++ and libc++ both return this text). -/
def bad_function_call_what : String := "bad_function_call"

/-- The `what()` description of an exception derived from `std::exception`.
(`nonStd` exceptions are not derived from `std::exception` and have no
`what()`; the value returned for them is never used.) -/
def CppExn.what : CppExn → String
  | .ios w => w
  | .stdexc w => w
  | .badFunctionCall => bad_function_call_what
  | .nonStd => ""

/-- A computation in the embedded semantics: the output lines it emits and
its outcome (normal return of a `T`, or an exception escaping the call). -/
abbrev Comp (T : Type) := List Event × Except CppExn T

/-- Embedding of the C++ `optional_type<T>` (lines 31-45 of the source):
a weak optional holding a `value`, the two flags `OK` and `BAD`, and a
diagnostic message `msg`. -/
structure optional_type (T : Type) where
  value : T
  OK : Bool
  BAD : Bool
  msg : String
deriving DecidableEq, Repr

/-- The value constructor `optional_type(T t) : value(t) { OK = true; BAD = false; }`.
The `msg` member is default-constructed to the empty string. -/
def optional_type.mk_value {T : Type} (t : T) : optional_type T :=
  { value := t, OK := true, BAD := false, msg := "" }

/-- The flag constructor `optional_type(bool ok, std::string msg="") : msg(msg)
{ OK = ok; BAD = !ok; }`.  The `value` member is left uninitialised by the
C++ constructor; the embedding takes the `Inhabited` default for it. -/
def optional_type.mk_flag {T : Type} [Inhabited T] (ok : Bool) (msg : String) :
    optional_type T :=
  { value := default, OK := ok, BAD := !ok, msg := msg }

/-- Embedding of the decorator `exception_fail_safe` (lines 52-68): invokes
`func` once; a normal return `v` becomes a success wrapper of `v`; a thrown
`std::iostream::failure` or other `std::exception` becomes a failure wrapper
carrying the exception's `what()`; any other thrown object becomes a failure
wrapper with the generic diagnostic.  The wrapped call itself never throws,
and the output trace is exactly the trace of the single invocation of
`func`. -/
def exception_fail_safe {α T : Type} [Inhabited T] (func : α → Comp T) :
    α → Comp (optional_type T) :=
  fun args =>
    let r := func args
    (r.1, match r.2 with
      | Except.ok v => Except.ok (optional_type.mk_value v)
      | Except.error (CppExn.ios w) => Except.ok (optional_type.mk_flag false w)
      | Except.error (CppExn.stdexc w) => Except.ok (optional_type.mk_flag false w)
      | Except.error CppExn.badFunctionCall =>
          Except.ok (optional_type.mk_flag false bad_function_call_what)
      | Except.error CppExn.nonStd =>
          Except.ok (optional_type.mk_flag false "Exception caught: default exception"))

/-- Embedding of the decorator `output` (lines 71-84): invokes `func` once;
if it returns a wrapper with `BAD` set, prints `"There was an error: "`
followed by the wrapper's `msg`; otherwise prints `"Bag cost $"` followed by
the wrapper's `value`; returns the wrapper unchanged.  If `func` throws, the
exception propagates and nothing is printed by this decorator. -/
def output {α T : Type} [ToString T] (func : α → Comp (optional_type T)) :
    α → Comp (optional_type T) :=
  fun args =>
    let r := func args
    match r.2 with
    | Except.error e => (r.1, Except.error e)
    | Except.ok opt =>
      if opt.BAD then
        (r.1 ++ [Event.out ("There was an error: " ++ opt.msg)], Except.ok opt)
      else
        (r.1 ++ [Event.out ("Bag cost $" ++ toString opt.value)], Except.ok opt)

/-- Embedding of the decorator `log_time` (lines 89-99): reads the current
wall-clock time (embedded as the parameter `t`, since the clock is an
external input), invokes `func` once, prints one `"> Logged at "` line, and
returns the inner result unchanged.  If `func` throws, the print after the
call is never reached and the exception propagates. -/
def log_time {α T : Type} (t : String) (func : α → Comp T) : α → Comp T :=
  fun args =>
    let r := func args
    match r.2 with
    | Except.error e => (r.1, Except.error e)
    | Except.ok v => (r.1 ++ [Event.out ("> Logged at " ++ t)], Except.ok v)

/-- Embedding of the visitor `classmethod` (lines 105-110): converts a
member function into a free function taking the instance as its first
argument and forwarding the remaining arguments (gathered into one tuple
component `β` here, standing for the variadic pack). -/
def classmethod {C β T : Type} (func : C → β → Comp T) : C × β → Comp T :=
  fun p => func p.1 p.2

/-- Embedding of `class_memberfunc<ClassType, RType, std::tuple<Args...>>`
(lines 133-155): a raw pointer to the owning instance (embedded as the
owner's state, since the program never mutates an owner after construction)
and a `std::function` slot, empty (`none`) until assigned. -/
structure class_memberfunc (C R A : Type) where
  self : C
  f : Option (C × A → Comp R)

/-- The constructor `class_memberfunc(ClassType* self) : self(self) {}`:
stores the owner, leaves the `std::function` empty. -/
def class_memberfunc.mk_self {C R A : Type} (self : C) : class_memberfunc C R A :=
  { self := self, f := none }

/-- The copy constructor (lines 142-145): copies the owner pointer and the
stored callable verbatim. -/
def class_memberfunc.copy {C R A : Type} (rhs : class_memberfunc C R A) :
    class_memberfunc C R A :=
  { self := rhs.self, f := rhs.f }

/-- The assignment `operator=` (lines 147-150): replaces the stored callable,
leaving the owner pointer untouched. -/
def class_memberfunc.assign {C R A : Type} (cm : class_memberfunc C R A)
    (rhs : C × A → Comp R) : class_memberfunc C R A :=
  { cm with f := some rhs }

/-- The call `operator()` (lines 152-154): `return f(*self, args...)`.
Invoking an empty `std::function` throws `std::bad_function_call`, which the
slot does not catch. -/
def class_memberfunc.call {C R A : Type} (cm : class_memberfunc C R A)
    (args : A) : Comp R :=
  match cm.f with
  | none => ([], Except.error CppExn.badFunctionCall)
  | some g => g (cm.self, args)

/-- Embedding of the state of the example class `apples` (lines 175-203):
its only data member besides the slot is `cost_per_apple`. -/
structure apples where
  cost_per_apple : ℚ
deriving DecidableEq, Repr

/-- Embedding of `apples::calculate_cost_impl` (lines 178-186): throws a
`std::runtime_error` when `count <= 0`, then when `weight <= 0`, otherwise
returns `count * weight * cost_per_apple`.  The body prints nothing. -/
def apples.calculate_cost_impl (a : apples) (args : Int × ℚ) : Comp ℚ :=
  if args.1 ≤ 0 then
    ([], Except.error (CppExn.stdexc "must have 1 or more apples"))
  else if args.2 ≤ 0 then
    ([], Except.error (CppExn.stdexc "apples must weigh more than 0 ounces"))
  else
    ([], Except.ok ((args.1 : ℚ) * args.2 * a.cost_per_apple))

/-- Embedding of the `apples` constructor (lines 192-197): builds the slot
pointing at the new instance, then assigns the decorator chain
`log_time(output(exception_fail_safe(classmethod(&apples::calculate_cost_impl))))`
to it.  `t` is the wall-clock reading used by `log_time`. -/
def apples.init (cost_per_apple : ℚ) (t : String) :
    class_memberfunc apples (optional_type ℚ) (Int × ℚ) :=
  (class_memberfunc.mk_self { cost_per_apple := cost_per_apple }).assign
    (log_time t (output (exception_fail_safe (classmethod apples.calculate_cost_impl))))

/-- `hasPrefixChars s p` holds when the char list `p` is a prefix of `s`. -/
def hasPrefixChars : List Char → List Char → Bool
  | _, [] => true
  | [], _ :: _ => false
  | c :: cs, p :: ps => c == p && hasPrefixChars cs ps

/-- `hasSubstrChars s p` holds when `p` occurs contiguously inside `s`. -/
def hasSubstrChars : List Char → List Char → Bool
  | [], p => p.isEmpty
  | c :: cs, p => hasPrefixChars (c :: cs) p || hasSubstrChars cs p

/-- `mentions s sub` holds when `sub` occurs as a substring of `s`. -/
def mentions (s sub : String) : Bool :=
  hasSubstrChars s.data sub.data

/-- Instrumentation of a callable: identical outcome and output, with one
extra `invoke` event recorded at each invocation, so that the number of
invocations a decorator performs is observable in the trace. -/
def instrument {α T : Type} (f : α → Comp T) : α → Comp T :=
  fun a => (Event.invoke :: (f a).1, (f a).2)

/-- The number of `invoke` events in a trace. -/
def countInvoke (tr : List Event) : Nat :=
  (tr.filter (fun e => match e with | Event.invoke => true | _ => false)).length

/-- The number of occurrences of the event `e` in a trace. -/
def countEvent (e : Event) (tr : List Event) : Nat :=
  (tr.filter (fun x => x == e)).length

/-! ### Helper lemmas (shared by several claim proofs) -/

theorem exception_fail_safe_ok {α T : Type} [Inhabited T] {f : α → Comp T}
    {args : α} {tr : List Event} {v : T} (h : f args = (tr, Except.ok v)) :
    exception_fail_safe f args = (tr, Except.ok (optional_type.mk_value v)) := by
  simp [exception_fail_safe, h]

theorem exception_fail_safe_err {α T : Type} [Inhabited T] {f : α → Comp T}
    {args : α} {tr : List Event} {e : CppExn} (h : f args = (tr, Except.error e))
    (he : e ≠ CppExn.nonStd) :
    exception_fail_safe f args = (tr, Except.ok (optional_type.mk_flag false e.what)) := by
  cases e with
  | ios w => simp [exception_fail_safe, h, CppExn.what]
  | stdexc w => simp [exception_fail_safe, h, CppExn.what]
  | badFunctionCall => simp [exception_fail_safe, h, CppExn.what]
  | nonStd => exact absurd rfl he

theorem exception_fail_safe_nonStd {α T : Type} [Inhabited T] {f : α → Comp T}
    {args : α} {tr : List Event} (h : f args = (tr, Except.error CppExn.nonStd)) :
    exception_fail_safe f args =
      (tr, Except.ok (optional_type.mk_flag false "Exception caught: default exception")) := by
  simp [exception_fail_safe, h]

theorem exception_fail_safe_fst {α T : Type} [Inhabited T] (f : α → Comp T)
    (args : α) : (exception_fail_safe f args).1 = (f args).1 := rfl

theorem output_bad {α T : Type} [ToString T] {f : α → Comp (optional_type T)}
    {args : α} {tr : List Event} {opt : optional_type T}
    (h : f args = (tr, Except.ok opt)) (hb : opt.BAD = true) :
    output f args = (tr ++ [Event.out ("There was an error: " ++ opt.msg)], Except.ok opt) := by
  simp [output, h, hb]

theorem output_good {α T : Type} [ToString T] {f : α → Comp (optional_type T)}
    {args : α} {tr : List Event} {opt : optional_type T}
    (h : f args = (tr, Except.ok opt)) (hb : opt.BAD = false) :
    output f args = (tr ++ [Event.out ("Bag cost $" ++ toString opt.value)], Except.ok opt) := by
  simp [output, h, hb]

theorem log_time_ok {α T : Type} (t : String) {f : α → Comp T} {args : α}
    {tr : List Event} {v : T} (h : f args = (tr, Except.ok v)) :
    log_time t f args = (tr ++ [Event.out ("> Logged at " ++ t)], Except.ok v) := by
  simp [log_time, h]

theorem apples_impl_pos (c : ℚ) (count : Int) (weight : ℚ)
    (hc : 0 < count) (hw : 0 < weight) :
    apples.calculate_cost_impl { cost_per_apple := c } (count, weight)
      = ([], Except.ok ((count : ℚ) * weight * c)) := by
  unfold apples.calculate_cost_impl
  rw [if_neg (by simpa using not_le.mpr hc), if_neg (by simpa using not_le.mpr hw)]

theorem apples_impl_nonpos_count (c : ℚ) (count : Int) (weight : ℚ)
    (hc : count ≤ 0) :
    apples.calculate_cost_impl { cost_per_apple := c } (count, weight)
      = ([], Except.error (CppExn.stdexc "must have 1 or more apples")) := by
  unfold apples.calculate_cost_impl
  rw [if_pos (by simpa using hc)]

theorem apples_impl_nonpos_weight (c : ℚ) (count : Int) (weight : ℚ)
    (hc : 0 < count) (hw : weight ≤ 0) :
    apples.calculate_cost_impl { cost_per_apple := c } (count, weight)
      = ([], Except.error (CppExn.stdexc "apples must weigh more than 0 ounces")) := by
  unfold apples.calculate_cost_impl
  rw [if_neg (by simpa using not_le.mpr hc), if_pos (by simpa using hw)]

theorem apples_call_unfold (c : ℚ) (t : String) (args : Int × ℚ) :
    (apples.init c t).call args =
      log_time t (output (exception_fail_safe (classmethod apples.calculate_cost_impl)))
        ({ cost_per_apple := c }, args) := rfl

/-! ### Claim theorems -/

/-- C1: for every `count > 0` and `weight > 0`, the decorated domain
operation `calculate_cost(count, weight)` on an `apples` instance with unit
cost `c` returns a success result (`OK` true, `BAD` false) whose value
equals `count * weight * c`. -/
theorem apples_calculate_cost_pos (c : ℚ) (t : String) (count : Int) (weight : ℚ)
    (hc : 0 < count) (hw : 0 < weight) :
    ((apples.init c t).call (count, weight)).2 =
      Except.ok { value := (count : ℚ) * weight * c, OK := true, BAD := false, msg := "" } := by
  have h0 : classmethod apples.calculate_cost_impl
        (({ cost_per_apple := c } : apples), (count, weight))
      = ([], Except.ok ((count : ℚ) * weight * c)) := by
    simpa [classmethod] using apples_impl_pos c count weight hc hw
  have h1 := exception_fail_safe_ok h0
  have h2 := output_good h1 rfl
  have h3 := log_time_ok t h2
  rw [apples_call_unfold, h3]
  rfl

/-- C1 witness: the example call of `main`, `calculate_cost(5, 3.34)` at
unit cost `1.09`, succeeds with value `5 * 3.34 * 1.09`. -/
theorem apples_calculate_cost_pos_witness :
    ((apples.init (109/100) "W").call (5, 334/100)).2 =
      Except.ok { value := ((5 : Int) : ℚ) * (334/100) * (109/100), OK := true,
                  BAD := false, msg := "" } :=
  apples_calculate_cost_pos (109/100) "W" 5 (334/100) (by decide) (by norm_num)

/-- C3: for every `count ≤ 0` and every `weight`, the decorated call returns
a failure result (`OK` false, `BAD` true) — never a success value — whose
message mentions the count precondition "1 or more apples". -/
theorem apples_calculate_cost_nonpos_count (c : ℚ) (t : String) (count : Int)
    (weight : ℚ) (hc : count ≤ 0) :
    ((apples.init c t).call (count, weight)).2
      = Except.ok (optional_type.mk_flag false "must have 1 or more apples")
  ∧ (optional_type.mk_flag false "must have 1 or more apples" : optional_type ℚ).OK = false
  ∧ (optional_type.mk_flag false "must have 1 or more apples" : optional_type ℚ).BAD = true
  ∧ mentions "must have 1 or more apples" "1 or more apples" = true := by
  have h0 : classmethod apples.calculate_cost_impl
        (({ cost_per_apple := c } : apples), (count, weight))
      = ([], Except.error (CppExn.stdexc "must have 1 or more apples")) := by
    simpa [classmethod] using apples_impl_nonpos_count c count weight hc
  have h1 := exception_fail_safe_err h0 (by simp)
  have h2 := output_bad h1 rfl
  have h3 := log_time_ok t h2
  refine ⟨?_, rfl, rfl, by decide⟩
  rw [apples_call_unfold, h3]
  rfl

/-- C3 witness: the spec scenario `(count = 0, weight = 3.34)` produces the
count-precondition failure. -/
theorem apples_calculate_cost_nonpos_count_witness :
    ((apples.init (109/100) "W").call (0, 334/100)).2
      = Except.ok (optional_type.mk_flag false "must have 1 or more apples")
  ∧ (optional_type.mk_flag false "must have 1 or more apples" : optional_type ℚ).OK = false
  ∧ (optional_type.mk_flag false "must have 1 or more apples" : optional_type ℚ).BAD = true
  ∧ mentions "must have 1 or more apples" "1 or more apples" = true :=
  apples_calculate_cost_nonpos_count (109/100) "W" 0 (334/100) (by decide)

/-- C4 counterexample: at `count = 0`, `weight = 0` — a nonpositive weight,
so the claim applies — the decorated call returns the count-precondition
failure, whose message does not mention "weigh more than 0": the count check
runs first. -/
theorem apples_calculate_cost_nonpos_weight_counterexample :
    ((0 : ℚ) ≤ 0)
  ∧ ((apples.init (109/100) "W").call (0, 0)).2
      = Except.ok (optional_type.mk_flag false "must have 1 or more apples")
  ∧ mentions "must have 1 or more apples" "weigh more than 0" = false := by
  refine ⟨le_refl 0, ?_, by decide⟩
  have h0 : classmethod apples.calculate_cost_impl
        (({ cost_per_apple := 109/100 } : apples), ((0 : Int), (0 : ℚ)))
      = ([], Except.error (CppExn.stdexc "must have 1 or more apples")) := by
    simpa [classmethod] using apples_impl_nonpos_count (109/100) 0 0 (le_refl 0)
  have h1 := exception_fail_safe_err h0 (by simp)
  have h2 := output_bad h1 rfl
  have h3 := log_time_ok "W" h2
  rw [apples_call_unfold, h3]
  rfl

/-- C4 (amended): for every `weight ≤ 0` and every `count ≥ 1`, the
decorated call returns a failure result whose message mentions the weight
precondition "weigh more than 0" (for `count ≤ 0` the count check fires
first and the message references "1 or more apples" instead). -/
theorem apples_calculate_cost_nonpos_weight_amended (c : ℚ) (t : String)
    (count : Int) (weight : ℚ) (hc : 0 < count) (hw : weight ≤ 0) :
    ((apples.init c t).call (count, weight)).2
      = Except.ok (optional_type.mk_flag false "apples must weigh more than 0 ounces")
  ∧ (optional_type.mk_flag false "apples must weigh more than 0 ounces" : optional_type ℚ).OK = false
  ∧ (optional_type.mk_flag false "apples must weigh more than 0 ounces" : optional_type ℚ).BAD = true
  ∧ mentions "apples must weigh more than 0 ounces" "weigh more than 0" = true := by
  have h0 : classmethod apples.calculate_cost_impl
        (({ cost_per_apple := c } : apples), (count, weight))
      = ([], Except.error (CppExn.stdexc "apples must weigh more than 0 ounces")) := by
    simpa [classmethod] using apples_impl_nonpos_weight c count weight hc hw
  have h1 := exception_fail_safe_err h0 (by simp)
  have h2 := output_bad h1 rfl
  have h3 := log_time_ok t h2
  refine ⟨?_, rfl, rfl, by decide⟩
  rw [apples_call_unfold, h3]
  rfl

/-- C4 witness: the spec scenario `(count = 5, weight = 0)` produces the
weight-precondition failure. -/
theorem apples_calculate_cost_nonpos_weight_amended_witness :
    ((apples.init (109/100) "W").call (5, 0)).2
      = Except.ok (optional_type.mk_flag false "apples must weigh more than 0 ounces")
  ∧ (optional_type.mk_flag false "apples must weigh more than 0 ounces" : optional_type ℚ).OK = false
  ∧ (optional_type.mk_flag false "apples must weigh more than 0 ounces" : optional_type ℚ).BAD = true
  ∧ mentions "apples must weigh more than 0 ounces" "weigh more than 0" = true :=
  apples_calculate_cost_nonpos_weight_amended (109/100) "W" 5 0 (by decide) (le_refl 0)

/-- C2: `exception_fail_safe` never lets a fault propagate to the caller:
its output trace is exactly that of the single invocation of `F` (the
instrumented conjunct makes the exactly-once invocation observable); a
normal return becomes a success wrapper of the value; an exception derived
from `std::exception` becomes a failure wrapper carrying its `what()`
description; any other thrown object becomes a failure wrapper whose
generic diagnostic mentions "default exception". -/
theorem exception_fail_safe_spec {α T : Type} [Inhabited T] (f : α → Comp T)
    (args : α) :
    ((exception_fail_safe f args).1 = (f args).1)
  ∧ (∀ (tr : List Event) (v : T), f args = (tr, Except.ok v) →
      exception_fail_safe f args =
        (tr, Except.ok { value := v, OK := true, BAD := false, msg := "" }))
  ∧ (∀ (tr : List Event) (e : CppExn), f args = (tr, Except.error e) →
      e ≠ CppExn.nonStd →
      exception_fail_safe f args =
        (tr, Except.ok { value := default, OK := false, BAD := true, msg := e.what }))
  ∧ (∀ tr : List Event, f args = (tr, Except.error CppExn.nonStd) →
      exception_fail_safe f args =
        (tr, Except.ok { value := default, OK := false, BAD := true,
                         msg := "Exception caught: default exception" })
      ∧ mentions "Exception caught: default exception" "default exception" = true)
  ∧ countInvoke (exception_fail_safe (instrument f) args).1
      = countInvoke (f args).1 + 1 := by
  refine ⟨rfl, ?_, ?_, ?_, ?_⟩
  · intro tr v h
    exact exception_fail_safe_ok h
  · intro tr e h he
    exact exception_fail_safe_err h he
  · intro tr h
    exact ⟨exception_fail_safe_nonStd h, by decide⟩
  · rfl

/-- C2 witness: a callable throwing `std::runtime_error("boom")` is
translated into a failure wrapper with message "boom". -/
theorem exception_fail_safe_spec_witness :
    exception_fail_safe
        (fun _ : Unit => (([] : List Event), (Except.error (CppExn.stdexc "boom") : Except CppExn ℚ))) ()
      = ([], Except.ok { value := (default : ℚ), OK := false, BAD := true, msg := "boom" }) :=
  ((exception_fail_safe_spec
      (fun _ : Unit => (([] : List Event), (Except.error (CppExn.stdexc "boom") : Except CppExn ℚ)))
      ()).2.2.1) [] (CppExn.stdexc "boom") rfl (by decide)

/-- C5: `log_time` on an inner callable that returns a Result-wrapper emits
exactly one timestamp line, appended after the inner trace, regardless of
the wrapper's success or failure, and returns the inner result — value,
flags and message — unchanged. -/
theorem log_time_spec {α T : Type} (t : String) (f : α → Comp (optional_type T))
    (args : α) (tr : List Event) (opt : optional_type T)
    (h : f args = (tr, Except.ok opt)) :
    log_time t f args = (tr ++ [Event.out ("> Logged at " ++ t)], Except.ok opt)
  ∧ (log_time t f args).2 = (f args).2
  ∧ countEvent (Event.out ("> Logged at " ++ t)) (log_time t f args).1
      = countEvent (Event.out ("> Logged at " ++ t)) tr + 1 := by
  have h1 := log_time_ok t h
  refine ⟨h1, by rw [h1, h], ?_⟩
  rw [h1]
  simp [countEvent]

/-- C5 witness: `log_time` over a constant successful inner callable emits
the single timestamp line and passes the wrapper through. -/
theorem log_time_spec_witness :
    log_time "W" (fun _ : Unit => (([] : List Event), Except.ok (optional_type.mk_value (1 : ℚ)))) ()
      = ([] ++ [Event.out ("> Logged at " ++ "W")], Except.ok (optional_type.mk_value (1 : ℚ))) :=
  (log_time_spec "W"
    (fun _ : Unit => (([] : List Event), Except.ok (optional_type.mk_value (1 : ℚ))))
    () [] (optional_type.mk_value 1) rfl).1

/-- C6: `output` prints, on a failure result, the line
`"There was an error: " ++ msg` — a line that does not depend on the
wrapper's `value` field, which it never consults — and on a success result
the line `"Bag cost $" ++ value`; in both cases it returns the same
Result-wrapper unchanged. -/
theorem output_spec {α T : Type} [ToString T] (f : α → Comp (optional_type T))
    (args : α) (tr : List Event) (opt : optional_type T)
    (h : f args = (tr, Except.ok opt)) :
    (opt.BAD = true →
      output f args = (tr ++ [Event.out ("There was an error: " ++ opt.msg)], Except.ok opt))
  ∧ (opt.BAD = false →
      output f args = (tr ++ [Event.out ("Bag cost $" ++ toString opt.value)], Except.ok opt))
  ∧ (opt.BAD = true → ∀ v : T,
      (output (fun _ : α => (tr, Except.ok { opt with value := v })) args).1
        = tr ++ [Event.out ("There was an error: " ++ opt.msg)])
  ∧ (output f args).2 = Except.ok opt := by
  refine ⟨fun hb => output_bad h hb, fun hb => output_good h hb, ?_, ?_⟩
  · intro hb v
    simp [output, hb]
  · cases hb : opt.BAD with
    | false => rw [output_good h hb]
    | true => rw [output_bad h hb]

/-- C6 witness: a failure wrapper with message "oops" produces the error
report line and is returned unchanged. -/
theorem output_spec_witness :
    output (fun _ : Unit =>
        (([] : List Event), Except.ok (optional_type.mk_flag false "oops" : optional_type ℚ))) ()
      = ([] ++ [Event.out ("There was an error: " ++ "oops")],
         Except.ok (optional_type.mk_flag false "oops" : optional_type ℚ)) :=
  (output_spec
    (fun _ : Unit =>
      (([] : List Event), Except.ok (optional_type.mk_flag false "oops" : optional_type ℚ)))
    () [] (optional_type.mk_flag false "oops") rfl).1 rfl

/-- C7: invoking a slot whose `std::function` holds callable `g` calls `g`
with the owning instance as the first argument, then the explicit
arguments, and returns `g`'s result. -/
theorem class_memberfunc_call_spec {C R A : Type} (cm : class_memberfunc C R A)
    (g : C × A → Comp R) (h : cm.f = some g) (args : A) :
    cm.call args = g (cm.self, args) := by
  simp [class_memberfunc.call, h]

/-- C7 witness: a slot on owner `7` storing the addition callable returns
`7 + 35` when invoked with `35`. -/
theorem class_memberfunc_call_spec_witness :
    class_memberfunc.call
      ({ self := 7, f := some (fun p => (([] : List Event), Except.ok (p.1 + p.2))) } :
        class_memberfunc Nat Nat Nat) 35
      = ([], Except.ok 42) :=
  class_memberfunc_call_spec
    ({ self := 7, f := some (fun p => (([] : List Event), Except.ok (p.1 + p.2))) } :
      class_memberfunc Nat Nat Nat)
    (fun p => (([] : List Event), Except.ok (p.1 + p.2))) rfl 35

/-- C8: every construction of an `optional_type` establishes that exactly one
of `OK` and `BAD` is true (and the embedding is immutable, so it stays true):
the value constructor yields a success result carrying the value; the flag
constructor with `false` yields a failure result carrying the message; the
flag constructor with `true` yields a success result. -/
theorem optional_type_invariant_spec {T : Type} [Inhabited T] :
    (∀ t : T, (optional_type.mk_value t).OK = true ∧
        (optional_type.mk_value t).BAD = false ∧
        (optional_type.mk_value t).value = t ∧
        (optional_type.mk_value t).msg = "")
  ∧ (∀ m : String, (optional_type.mk_flag false m : optional_type T).OK = false ∧
        (optional_type.mk_flag false m : optional_type T).BAD = true ∧
        (optional_type.mk_flag false m : optional_type T).msg = m)
  ∧ (∀ m : String, (optional_type.mk_flag true m : optional_type T).OK = true ∧
        (optional_type.mk_flag true m : optional_type T).BAD = false)
  ∧ (∀ t : T, xor (optional_type.mk_value t).OK (optional_type.mk_value t).BAD = true)
  ∧ (∀ (ok : Bool) (m : String),
        xor (optional_type.mk_flag ok m : optional_type T).OK
            (optional_type.mk_flag ok m : optional_type T).BAD = true) := by
  refine ⟨fun t => ⟨rfl, rfl, rfl, rfl⟩, fun m => ⟨rfl, rfl, rfl⟩,
    fun m => ⟨rfl, rfl⟩, fun t => rfl, fun ok m => ?_⟩
  cases ok <;> rfl

/-- C9: the copy constructor of `class_memberfunc` copies both the owner
pointer and the stored callable: the copy's fields equal the source's, so
invoking the copy behaves exactly as invoking the source — in particular it
passes the original owning instance to the stored callable. -/
theorem class_memberfunc_copy_spec {C R A : Type} (rhs : class_memberfunc C R A) :
    (rhs.copy).self = rhs.self ∧ (rhs.copy).f = rhs.f ∧
    ∀ args : A, (rhs.copy).call args = rhs.call args :=
  ⟨rfl, rfl, fun _ => rfl⟩

/-- C10: invoking a slot that was constructed with an owner but never
assigned a callable throws `std::bad_function_call` (the empty
`std::function` is invoked); the slot performs no emptiness check and no
fault translation, so the raw exception escapes with an empty output
trace. -/
theorem class_memberfunc_empty_call_spec {C R A : Type} (self : C) (args : A) :
    (class_memberfunc.mk_self self : class_memberfunc C R A).call args
      = ([], Except.error CppExn.badFunctionCall) := rfl
